import Mathlib

/-!
Shallow embedding of the flo client-side connection coordinator.

Sources embedded:
* `src/binaries/flo/src/controller/mod.rs` — coordinator `State`, its event
  handlers, `LobbyConn`, `ControllerEvent`.
* `src/binaries/flo/src/node/stream.rs` — `NodeStream` worker loop,
  `NodeConnectToken`.
* `src/crates/config/src/lib.rs` — `ClientConfig` loading.
* `src/crates/node/src/game/peer.rs` — `PeerStream::poll_next`.

Channel sends are modelled as append-only output lists (`Effects`): a frame
handed to a channel sender is recorded whether or not the receiving half is
still alive; the alive flag (`sender_open`) additionally drives the
failure branch of `send_frame_or_disconnect_ws`. Protobuf encoding
(`encode_as_frame`) is modelled as total: frames are modelled as their
semantic content, the wire codec is out of scope.
-/

/-- The client error type (`crate::error::Error`); only the variants the
embedded code paths touch are modelled. -/
inductive FloError
  | War3NotLocated
  | StorageFailed
  | StreamErr (msg : String)
  deriving DecidableEq

/-- Modelled from the spec: player status enum of `PlayerSession`
(`controller/stream.rs` is not part of the excerpt); spec lists
"Idle, Connecting, Joining, InGame, …". -/
inductive PlayerStatus
  | Idle
  | Connecting
  | Joining
  | InGame
  deriving DecidableEq

/-- Modelled from the spec: per-player info inside `LobbyGameInfo`
(`controller/stream.rs` is not part of the excerpt). -/
structure PlayerInfo where
  player_id : Int
  name : String
  deriving DecidableEq

/-- Modelled from the spec: the authenticated session
(`controller/stream.rs` is not part of the excerpt). Attributes per spec:
`player_id`, `player_name`, optional `game_id`, `status`. -/
structure PlayerSession where
  player_id : Int
  player_name : String
  game_id : Option Int
  status : PlayerStatus
  deriving DecidableEq

/-- The payload of a partial session update: the handler writes exactly
`current.game_id = update.game_id; current.status = update.status`. -/
structure PlayerSessionUpdate where
  game_id : Option Int
  status : PlayerStatus
  deriving DecidableEq

/-- The in-place mutation a Partial update performs
(controller/mod.rs:281-282): only `game_id` and `status` are written. -/
def PlayerSession.patch (current : PlayerSession) (u : PlayerSessionUpdate) : PlayerSession :=
  { current with game_id := u.game_id, status := u.status }

/-- `LobbyGameInfo` (controller/mod.rs); `players` is a `HashMap<i32, PlayerInfo>`
modelled as an association list. -/
structure LobbyGameInfo where
  game_id : Int
  map_path : String
  map_sha1 : List Nat
  map_checksum : Nat
  players : List (Int × PlayerInfo)
  host_player : Option PlayerInfo
  deriving DecidableEq

/-- Modelled from the spec: `GameStartedEvent` (`controller/stream.rs` is not
part of the excerpt); carries the node id, game id and the node-connect
credentials. -/
structure GameStartedEvent where
  node_id : Int
  game_id : Int
  token : List Nat
  deriving DecidableEq

/-- Modelled from the spec: `PingUpdate { node_id, ping: Option<Duration> }`
(`node/mod.rs` is not part of the excerpt); the duration is modelled in
milliseconds. -/
structure PingUpdate where
  node_id : Int
  ping : Option Nat
  deriving DecidableEq

/-- Outgoing lobby frames, modelled by semantic content (the wire codec is
out of scope). `ui` stands for an opaque frame forwarded from the UI. -/
inductive Frame
  | gamePlayerPingMapUpdate (game_id : Int) (ping_map : List (Int × Nat))
  | gameStartPlayerClientInfo (game_id : Int) (war3_version : String) (map_sha1 : List Nat)
  | ui (tag : Nat)
  deriving DecidableEq

/-- `ws::message::DisconnectReason`; only the variant the embedded paths
construct is needed. -/
inductive DisconnectReason
  | Unknown
  deriving DecidableEq

/-- Messages sent to the local UI (`ws::message::OutgoingMessage`). -/
inductive OutgoingMessage
  | PingUpdate (update : PingUpdate)
  | Disconnect (reason : DisconnectReason) (message : String)
  deriving DecidableEq

/-- The coordinator-facing surface of `LobbyStream`: `current_game_id()` is
the snapshot the ping handler reads; `sender_open` models whether the
stream worker still drains the bounded frame channel (a closed channel
makes `frame_sender.send` fail). -/
structure LobbyStream where
  current_game_id : Option Int
  sender_open : Bool
  deriving DecidableEq

/-- `LobbyConn` (controller/mod.rs): the generation id plus the owned
stream. The cloned ws / stream-event senders are modelled globally as
output lists. -/
structure LobbyConn where
  id : Nat
  stream : LobbyStream
  deriving DecidableEq

/-- Outward `ControllerEvent` (controller/mod.rs). -/
inductive ControllerEvent
  | ConnectedEvent
  | DisconnectedEvent
  | GameStartedEvent (event : GameStartedEvent) (game_info : LobbyGameInfo)
  | GameInfoUpdateEvent (game_info : Option LobbyGameInfo)
  | WsWorkerErrorEvent (err : FloError)
  deriving DecidableEq

/-- `PlayerSessionUpdateEvent` (controller/stream.rs): `Full` replaces the
session, `Part` (named `Partial` in the source) patches it. -/
inductive PlayerSessionUpdateEvent
  | Full (session : PlayerSession)
  | Part (update : PlayerSessionUpdate)
  deriving DecidableEq

/-- `ControllerStreamEvent` (controller/stream.rs), as consumed by
`State::handle_stream_event`. -/
inductive ControllerStreamEvent
  | ConnectedEvent
  | DisconnectedEvent (id : Nat)
  | ConnectionErrorEvent (id : Nat) (err : FloError)
  | PlayerSessionUpdateEvent (event : PlayerSessionUpdateEvent)
  | GameInfoUpdateEvent (game_info : Option LobbyGameInfo)
  | GameStartingEvent (game_id : Int)
  | GameStartedEvent (event : GameStartedEvent)
  deriving DecidableEq

/-- `WsEvent` (controller/ws.rs is not part of the excerpt; the variants and
payloads are those `handle_ws_event` consumes): `ConnectLobbyEvent`
carries the UI sender (modelled globally) and the auth token. -/
inductive WsEvent
  | ConnectLobbyEvent (token : String)
  | LobbyFrameEvent (frame : Frame)
  | WorkerErrorEvent (err : FloError)
  deriving DecidableEq

/-- The platform collaborator (`PlatformStateRef`): `version` is the located
war3 version (`None` models `Error::War3NotLocated`), `map_sha1` models
`with_storage` + `W3Map::open_storage_with_checksum` returning the map
sha1 for a path (`None` models an open/checksum failure). -/
structure Platform where
  version : Option String
  map_sha1 : String → Option (List Nat)
  lobby_domain : String

/-- The three guarded cells of the coordinator `State` plus the atomic
`id_counter` (controller/mod.rs). -/
structure State where
  id_counter : Nat
  conn : Option LobbyConn
  current_game_info : Option LobbyGameInfo
  current_session : Option PlayerSession

/-- Observable outputs of one handler invocation: outward `ControllerEvent`s
(`event_sender`), frames handed to the lobby frame sender, messages sent to
the UI ws sender, and error-level log lines. -/
structure Effects where
  events : List ControllerEvent
  frames : List Frame
  wsMsgs : List OutgoingMessage
  logErrors : List String
  deriving DecidableEq

def noEffects : Effects := ⟨[], [], [], []⟩

def Effects.append (a b : Effects) : Effects :=
  ⟨a.events ++ b.events, a.frames ++ b.frames, a.wsMsgs ++ b.wsMsgs,
   a.logErrors ++ b.logErrors⟩

/-- `State::remove_conn` (controller/mod.rs:324-332): take the conn only if
its id matches; returns the taken conn. -/
def State.remove_conn (s : State) (id : Nat) : State × Option LobbyConn :=
  match s.conn with
  | some c => if c.id = id then ({ s with conn := none }, some c) else (s, none)
  | none => (s, none)

/-- `State::send_frame_or_disconnect_ws` (controller/mod.rs:203-220): if no
conn, discard; otherwise hand the frame to the conn frame sender and, when
the send fails (stream worker gone), send `Disconnect{Unknown}` to the
conn's UI sender. -/
def State.send_frame_or_disconnect_ws (s : State) (frame : Frame) : Effects :=
  match s.conn with
  | none => noEffects
  | some c =>
    if c.stream.sender_open then ⟨[], [frame], [], []⟩
    else
      ⟨[], [frame],
       [OutgoingMessage.Disconnect DisconnectReason.Unknown
         "Connection closed unexpectedly."], []⟩

/-- `State::handle_ws_event` (controller/mod.rs:222-245). `ConnectLobbyEvent`
stores a fresh `LobbyConn` tagged `id_counter.fetch_add(1)` (a fresh
`LobbyStream` has no current game and an open frame channel); the previous
conn is dropped by the overwrite. The `u64` counter wraps. -/
def State.handle_ws_event (s : State) (event : WsEvent) : State × Effects :=
  match event with
  | WsEvent.ConnectLobbyEvent _token =>
    ({ s with
        conn := some ⟨s.id_counter, ⟨none, true⟩⟩,
        id_counter := (s.id_counter + 1) % 2 ^ 64 },
     noEffects)
  | WsEvent.LobbyFrameEvent frame => (s, s.send_frame_or_disconnect_ws frame)
  | WsEvent.WorkerErrorEvent err =>
    (s, ⟨[ControllerEvent.WsWorkerErrorEvent err], [], [], []⟩)

/-- `State::handle_game_start` (controller/mod.rs:381-410): snapshot
`current_game_info`; only when present and its `game_id` matches, look up
the war3 version (else `War3NotLocated`), compute the map sha1 via the
platform storage (else error), then send the
`GameStartPlayerClientInfoRequest` frame via `send_frame_or_disconnect_ws`. -/
def State.handle_game_start (p : Platform) (s : State) (game_id : Int) :
    Except FloError Effects :=
  match s.current_game_info with
  | none => Except.ok noEffects
  | some info =>
    if info.game_id = game_id then
      match p.version with
      | none => Except.error FloError.War3NotLocated
      | some version =>
        match p.map_sha1 info.map_path with
        | none => Except.error FloError.StorageFailed
        | some sha1 =>
          Except.ok (s.send_frame_or_disconnect_ws
            (Frame.gameStartPlayerClientInfo game_id version sha1))
    else Except.ok noEffects

/-- `State::handle_stream_event` (controller/mod.rs:247-322). Note:
`DisconnectedEvent(id)` clears `current_session` before the id-guarded
`remove_conn` and always emits the outward `DisconnectedEvent`;
`ConnectionErrorEvent(id, err)` logs, id-guardedly removes the conn and
always emits the outward `DisconnectedEvent`, without touching
`current_session`. -/
def State.handle_stream_event (p : Platform) (s : State)
    (event : ControllerStreamEvent) : State × Effects :=
  match event with
  | ControllerStreamEvent.ConnectedEvent =>
    (s, ⟨[ControllerEvent.ConnectedEvent], [], [], []⟩)
  | ControllerStreamEvent.DisconnectedEvent id =>
    let s1 : State := { s with current_session := none }
    ((s1.remove_conn id).1, ⟨[ControllerEvent.DisconnectedEvent], [], [], []⟩)
  | ControllerStreamEvent.ConnectionErrorEvent id err =>
    ((s.remove_conn id).1,
     ⟨[ControllerEvent.DisconnectedEvent], [], [],
      ["server connection: " ++ match err with
        | FloError.StreamErr m => m
        | _ => "error"]⟩)
  | ControllerStreamEvent.PlayerSessionUpdateEvent ev =>
    match ev with
    | PlayerSessionUpdateEvent.Full session =>
      ({ s with current_session := some session }, noEffects)
    | PlayerSessionUpdateEvent.Part update =>
      match s.current_session with
      | some current =>
        ({ s with current_session := some (current.patch update) }, noEffects)
      | none =>
        (s, ⟨[], [], [],
          ["PlayerSessionUpdateEvent emitted by there is no active player session."]⟩)
  | ControllerStreamEvent.GameInfoUpdateEvent game_info =>
    ({ s with current_game_info := game_info },
     ⟨[ControllerEvent.GameInfoUpdateEvent game_info], [], [], []⟩)
  | ControllerStreamEvent.GameStartingEvent game_id =>
    match s.handle_game_start p game_id with
    | Except.ok eff => (s, eff)
    | Except.error _ => (s, ⟨[], [], [], ["get client info"]⟩)
  | ControllerStreamEvent.GameStartedEvent event =>
    match s.current_game_info with
    | some game_info =>
      (s, ⟨[ControllerEvent.GameStartedEvent event game_info], [], [], []⟩)
    | none => (s, ⟨[], [], [], ["game info unavailable"]⟩)

/-- `State::handle_ping_update` (controller/mod.rs:334-379): with no conn,
return immediately; otherwise forward the update to the UI, and only for a
successful ping (`Some`) with a current game id on the stream, hand a
single-entry `GamePlayerPingMapUpdateRequest` frame to the conn frame
sender (a failed send is only debug-logged). -/
def State.handle_ping_update (s : State) (update : PingUpdate) : Effects :=
  match s.conn with
  | none => noEffects
  | some c =>
    let wsMsgs := [OutgoingMessage.PingUpdate update]
    match update.ping with
    | none => ⟨[], [], wsMsgs, []⟩
    | some ping =>
      match c.stream.current_game_id with
      | none => ⟨[], [], wsMsgs, []⟩
      | some game_id =>
        ⟨[], [Frame.gamePlayerPingMapUpdate game_id [(update.node_id, ping)]],
         wsMsgs, []⟩

/-- One input to the coordinator, from any of its three event channels. -/
inductive CoordInput
  | ws (event : WsEvent)
  | stream (event : ControllerStreamEvent)
  | ping (update : PingUpdate)
  deriving DecidableEq

/-- Dispatch one input to its handler. -/
def State.step (p : Platform) (s : State) : CoordInput → State × Effects
  | CoordInput.ws event => s.handle_ws_event event
  | CoordInput.stream event => s.handle_stream_event p event
  | CoordInput.ping update => (s, s.handle_ping_update update)

/-- Run a sequence of inputs, accumulating all observable outputs. -/
def State.run (p : Platform) (s : State) : List CoordInput → State × Effects
  | [] => (s, noEffects)
  | input :: rest =>
    let r1 := s.step p input
    let r2 := r1.1.run p rest
    (r2.1, r1.2.append r2.2)

/-! ### Node stream (`src/binaries/flo/src/node/stream.rs`) -/

/-- Modelled from the spec: `NodeGameStatusSnapshot` (`flo_types`, not part of
the excerpt); the worker only reads `game_id` from it and forwards the
snapshot whole. -/
structure NodeGameStatusSnapshot where
  game_id : Int
  deriving DecidableEq

/-- Modelled from the spec: `SlotClientStatus` (`crate::types`, not part of
the excerpt); spec glossary: "connecting, loaded, in-game, …". -/
inductive SlotClientStatus
  | Connecting
  | Loaded
  | InGame
  deriving DecidableEq

/-- `SlotClientStatusUpdate` (node/stream.rs:284-294). -/
structure SlotClientStatusUpdate where
  player_id : Int
  game_id : Int
  status : SlotClientStatus
  deriving DecidableEq

/-- Modelled from the spec: `GameStatusUpdate` (`crate::types`, not part of
the excerpt); forwarded whole by the worker. -/
structure GameStatusUpdate where
  game_id : Int
  deriving DecidableEq

/-- `NodeStreamEvent` (node/stream.rs:275-282). -/
inductive NodeStreamEvent
  | SlotClientStatusUpdate (update : SlotClientStatusUpdate)
  | GameInitialStatus (snapshot : NodeGameStatusSnapshot)
  | GameStatusUpdate (update : GameStatusUpdate)
  | Disconnected
  deriving DecidableEq

/-- The body of one non-error frame received from the node, as demultiplexed
by the worker / `handle_node_frame`. `W3GS` carries whether the downstream
`w3gs_sender` receiver is still alive at that instant; `UpdateSlotClientStatus`
carries whether the protobuf unpack succeeds. `UnknownFrame` stands for an
unrecognized packet type (modelled from the spec: log and continue; the
`try_flo_packet` macro is not part of the excerpt). -/
inductive NodeFrameBody
  | W3GS (downstream_open : Bool)
  | UpdateSlotClientStatus (update : SlotClientStatusUpdate) (unpack_ok : Bool)
  | UpdateSlotClientStatusReject
  | NodeGameStatusUpdate (update : GameStatusUpdate)
  | UnknownFrame
  deriving DecidableEq

/-- The outcome of one `tokio::select!` iteration of `NodeStream::worker`
(node/stream.rs:122-176): the scope was dropped, a frame (or error) arrived
from the node, or an outgoing frame (or channel closure) arrived; an
outgoing frame carries whether `stream.send_frame` succeeds. -/
inductive WorkerInput
  | ScopeDropped
  | Recv (body : NodeFrameBody)
  | RecvStreamClosed
  | RecvErr
  | Outgoing (send_ok : Bool)
  | OutgoingClosed
  deriving DecidableEq

/-- The event emissions of the `NodeStream::worker` select loop
(node/stream.rs:122-177) on a given sequence of iteration outcomes,
after the initial-status send. Branches that `break` stop the list;
`handle_node_frame` (node/stream.rs:187-214) emits `Disconnected` on
`UpdateSlotClientStatusReject` but returns `Ok`, so the loop continues. -/
def runWorkerLoop : List WorkerInput → List NodeStreamEvent
  | [] => []
  | WorkerInput.ScopeDropped :: _ => []
  | WorkerInput.Recv (NodeFrameBody.W3GS true) :: rest => runWorkerLoop rest
  | WorkerInput.Recv (NodeFrameBody.W3GS false) :: _ => []
  | WorkerInput.Recv (NodeFrameBody.UpdateSlotClientStatus u true) :: rest =>
    NodeStreamEvent.SlotClientStatusUpdate u :: runWorkerLoop rest
  | WorkerInput.Recv (NodeFrameBody.UpdateSlotClientStatus _ false) :: _ => []
  | WorkerInput.Recv NodeFrameBody.UpdateSlotClientStatusReject :: rest =>
    NodeStreamEvent.Disconnected :: runWorkerLoop rest
  | WorkerInput.Recv (NodeFrameBody.NodeGameStatusUpdate g) :: rest =>
    NodeStreamEvent.GameStatusUpdate g :: runWorkerLoop rest
  | WorkerInput.Recv NodeFrameBody.UnknownFrame :: rest => runWorkerLoop rest
  | WorkerInput.RecvStreamClosed :: _ => [NodeStreamEvent.Disconnected]
  | WorkerInput.RecvErr :: _ => [NodeStreamEvent.Disconnected]
  | WorkerInput.Outgoing true :: rest => runWorkerLoop rest
  | WorkerInput.Outgoing false :: _ => [NodeStreamEvent.Disconnected]
  | WorkerInput.OutgoingClosed :: _ => []

/-- `NodeStream::worker` (node/stream.rs:105-185): before entering the loop
it sends exactly one `GameInitialStatus(initial_status)` event; then the
loop's emissions follow. -/
def NodeStream.worker (initial_status : NodeGameStatusSnapshot)
    (ios : List WorkerInput) : List NodeStreamEvent :=
  NodeStreamEvent.GameInitialStatus initial_status :: runWorkerLoop ios

/-- `NodeConnectToken` (node/stream.rs:255-256): a 16-byte credential,
bytes modelled as `Nat`s. -/
def NodeConnectToken := { bytes : List Nat // bytes.length = 16 }

/-- `NodeConnectToken::from_vec` (node/stream.rs:259-266): `None` unless
the vector has exactly 16 bytes, which are then copied into the token. -/
def NodeConnectToken.from_vec (bytes : List Nat) : Option NodeConnectToken :=
  if h : bytes.length = 16 then some ⟨bytes, h⟩ else none

/-- `NodeConnectToken::to_vec` (node/stream.rs:268-270). -/
def NodeConnectToken.to_vec (token : NodeConnectToken) : List Nat :=
  token.val

/-! ### Client configuration (`src/crates/config/src/lib.rs`) -/

/-- Modelled from the spec: the compiled constant `CONNECT_WS_PORT`
(`flo_constants` is not part of the excerpt); its numeric value is not
given there, an arbitrary concrete port stands for it. -/
def CONNECT_WS_PORT : Nat := 3551

/-- Modelled from the spec: the compiled constant `LOBBY_DOMAIN`
(`flo_constants` is not part of the excerpt). -/
def LOBBY_DOMAIN : String := "service.w3flo.com"

/-- `ClientConfig` (config/src/lib.rs:9-15); paths modelled as strings. -/
structure ClientConfig where
  local_port : Nat
  user_data_path : Option String
  installation_path : Option String
  lobby_domain : String
  deriving DecidableEq

/-- `impl Default for ClientConfig` (config/src/lib.rs:17-26). -/
def ClientConfig.defaultConfig : ClientConfig :=
  ⟨CONNECT_WS_PORT, none, none, LOBBY_DOMAIN⟩

/-- A parsed well-formed `flo.toml`: each of the four recognized keys is
present or absent. -/
structure FloToml where
  local_port : Option Nat
  user_data_path : Option String
  installation_path : Option String
  lobby_domain : Option String
  deriving DecidableEq

/-- The derived `Deserialize` for `ClientConfig` (no `serde(default)`
attribute anywhere on the struct): `Option` fields default to `None` when
absent, the non-`Option` fields `local_port` and `lobby_domain` are
required, so a document missing one fails with a missing-field error. -/
def deserialize_client_config (t : FloToml) : Except String ClientConfig :=
  match t.local_port with
  | none => Except.error "missing field local_port"
  | some port =>
    match t.lobby_domain with
    | none => Except.error "missing field lobby_domain"
    | some domain =>
      Except.ok ⟨port, t.user_data_path, t.installation_path, domain⟩

/-- The process environment as far as `apply_env` reads it: the raw string
values of the four `FLO_*` variables. -/
structure EnvVars where
  local_port : Option String
  user_data_path : Option String
  installation_path : Option String
  lobby_domain : Option String
  deriving DecidableEq

/-- `str::parse::<u16>`: digits only (an optional sign is not modelled; no
claim exercises it), value below 2^16. -/
def parse_u16 (s : String) : Option Nat :=
  match s.toNat? with
  | some n => if n < 2 ^ 16 then some n else none
  | none => none

/-- `ClientConfig::apply_env` (config/src/lib.rs:49-71): each set variable
overrides the corresponding field; `FLO_LOCAL_PORT` only when it parses as
`u16`. -/
def ClientConfig.apply_env (c : ClientConfig) (env : EnvVars) : ClientConfig :=
  let c := match env.local_port.bind parse_u16 with
    | some port => { c with local_port := port }
    | none => c
  let c := match env.user_data_path with
    | some path => { c with user_data_path := some path }
    | none => c
  let c := match env.installation_path with
    | some path => { c with installation_path := some path }
    | none => c
  match env.lobby_domain with
  | some domain => { c with lobby_domain := domain }
  | none => c

/-- `ClientConfig::load` (config/src/lib.rs:37-43): deserialize `flo.toml`
(the parsed document is the argument), then layer the environment
overrides on top. -/
def ClientConfig.load (t : FloToml) (env : EnvVars) : Except String ClientConfig :=
  match deserialize_client_config t with
  | Except.ok c => Except.ok (c.apply_env env)
  | Except.error e => Except.error e

/-- `ClientConfig::from_env` (config/src/lib.rs:29-35): defaults plus the
environment overrides. -/
def ClientConfig.from_env (env : EnvVars) : ClientConfig :=
  ClientConfig.defaultConfig.apply_env env

/-! ### Peer stream (`src/crates/node/src/game/peer.rs`) -/

/-- `std::task::Poll`. -/
inductive Poll (α : Type)
  | ready (value : α)
  | pending
  deriving DecidableEq

/-- `PeerMessage` (peer.rs:79-83); frames here are the opaque `flo_net`
frames, reusing the `Frame` model. -/
inductive PeerMessage
  | Outgoing (frame : Frame)
  | Incoming (frame : Frame)
  deriving DecidableEq

/-- The state of a `PeerStream` (peer.rs:11-17) as far as `poll_next` reads
and writes it: the `closed` flag (the channel receiver and the socket are
modelled as per-call poll inputs). -/
structure PeerStream where
  player_id : Int
  closed : Bool
  deriving DecidableEq

/-- `PeerStream::poll_next` (peer.rs:52-76): if `closed`, `Ready(None)`;
else an available outgoing frame is yielded first; otherwise the socket
poll is propagated, and an `Err` item sets `closed` before being yielded.
`receiver_poll` / `stream_poll` are the results the two inner polls would
return on this call. -/
def PeerStream.poll_next (s : PeerStream)
    (receiver_poll : Poll (Option Frame))
    (stream_poll : Poll (Option (Except String Frame))) :
    PeerStream × Poll (Option (Except String PeerMessage)) :=
  if s.closed then (s, Poll.ready none)
  else
    match receiver_poll with
    | Poll.ready (some frame) =>
      (s, Poll.ready (some (Except.ok (PeerMessage.Outgoing frame))))
    | _ =>
      match stream_poll with
      | Poll.pending => (s, Poll.pending)
      | Poll.ready none => (s, Poll.ready none)
      | Poll.ready (some (Except.ok frame)) =>
        (s, Poll.ready (some (Except.ok (PeerMessage.Incoming frame))))
      | Poll.ready (some (Except.error e)) =>
        ({ s with closed := true }, Poll.ready (some (Except.error e)))

/-! ### Test fixtures -/

/-- A platform whose war3 binary is located and whose storage yields a map
sha1 for every path. -/
def testPlatform : Platform :=
  ⟨some "1.32.10", fun _ => some (List.replicate 20 0), "service.w3flo.com"⟩

/-- A concrete authenticated session. -/
def testSession : PlayerSession := ⟨7, "player7", none, PlayerStatus.Idle⟩

/-- The empty coordinator state (as built by `State::new`). -/
def c0State : State := ⟨0, none, none, none⟩

/-- The empty process environment (no `FLO_*` variables set). -/
def emptyEnv : EnvVars := ⟨none, none, none, none⟩

/-! ### Claims -/

/-- C7: for every 16-byte token `t`, `from_vec (t.to_vec) = Some t`; and
`from_vec v = None` iff `v` does not have exactly 16 bytes. -/
theorem c7_token_roundtrip (t : NodeConnectToken) (v : List Nat) :
    NodeConnectToken.from_vec (NodeConnectToken.to_vec t) = some t ∧
    (NodeConnectToken.from_vec v = none ↔ v.length ≠ 16) := by
  constructor
  · unfold NodeConnectToken.from_vec NodeConnectToken.to_vec
    rw [dif_pos t.property]
    rfl
  · unfold NodeConnectToken.from_vec
    by_cases h : v.length = 16
    · simp [h]
    · simp [h]

/-- A well-formed `flo.toml` that sets `lobby_domain` but omits
`local_port` (and the optional paths). -/
def c8Toml : FloToml := ⟨none, none, none, some "service.w3flo.com"⟩

/-- C8 (code evaluated at the failing input): `ClientConfig::load` on a
well-formed `flo.toml` that omits `local_port`, with no environment
overrides, fails with a missing-field error instead of defaulting the port
to `CONNECT_WS_PORT` — even though `ClientConfig::default()` carries that
very default and the crate's own `test_client` test deserializes a config
with both `local_port` and `lobby_domain` absent. -/
theorem c8_load_rejects_missing_local_port :
    ClientConfig.load c8Toml emptyEnv = Except.error "missing field local_port" ∧
    ClientConfig.defaultConfig.local_port = CONNECT_WS_PORT ∧
    deserialize_client_config ⟨none, some "C:\\Users\\fluxx\\OneDrive\\Documents\\Warcraft III",
      some "C:\\Program Files (x86)\\Warcraft III", none⟩ =
      Except.error "missing field local_port" := by
  exact ⟨rfl, rfl, rfl⟩

/-- C9: a Partial session update with no current session is logged as an
error and dropped (the state, hence `current_session = None`, is
unchanged); with a current session it patches exactly the `game_id` and
`status` fields. -/
theorem c9_partial_session_update (p : Platform) (s : State) (u : PlayerSessionUpdate) :
    (s.current_session = none →
      s.handle_stream_event p
          (ControllerStreamEvent.PlayerSessionUpdateEvent (PlayerSessionUpdateEvent.Part u)) =
        (s, ⟨[], [], [],
          ["PlayerSessionUpdateEvent emitted by there is no active player session."]⟩)) ∧
    (∀ current, s.current_session = some current →
      s.handle_stream_event p
          (ControllerStreamEvent.PlayerSessionUpdateEvent (PlayerSessionUpdateEvent.Part u)) =
        ({ s with current_session := some (current.patch u) }, noEffects)) := by
  constructor
  · intro h
    simp [State.handle_stream_event, h]
  · intro current h
    simp [State.handle_stream_event, h]

/-- Witness for C9 at a concrete input: scenario 3 of the spec, a partial
update fed into the empty state. -/
theorem c9_witness :
    c0State.handle_stream_event testPlatform
        (ControllerStreamEvent.PlayerSessionUpdateEvent
          (PlayerSessionUpdateEvent.Part ⟨some 42, PlayerStatus.InGame⟩)) =
      (c0State, ⟨[], [], [],
        ["PlayerSessionUpdateEvent emitted by there is no active player session."]⟩) :=
  (c9_partial_session_update testPlatform c0State ⟨some 42, PlayerStatus.InGame⟩).1 rfl

/-- C10: once `poll_next` has yielded an `Err` item the `closed` flag is
set, and every call on a closed stream returns `Ready(None)` (so no further
item, `Ok` or `Err`, is ever yielded). -/
theorem c10_closed_after_error (s : PeerStream)
    (rp : Poll (Option Frame)) (sp : Poll (Option (Except String Frame))) (e : String)
    (h : (s.poll_next rp sp).2 = Poll.ready (some (Except.error e))) :
    (s.poll_next rp sp).1.closed = true ∧
    ∀ (t : PeerStream) (rp2 : Poll (Option Frame))
      (sp2 : Poll (Option (Except String Frame))),
      t.closed = true → t.poll_next rp2 sp2 = (t, Poll.ready none) := by
  constructor
  · by_cases hc : s.closed
    · simp [PeerStream.poll_next, hc] at h
    · cases rp with
      | ready ov =>
        cases ov with
        | some f => simp [PeerStream.poll_next, hc] at h
        | none =>
          cases sp with
          | pending => simp [PeerStream.poll_next, hc] at h
          | ready os =>
            cases os with
            | none => simp [PeerStream.poll_next, hc] at h
            | some r =>
              cases r with
              | ok f => simp [PeerStream.poll_next, hc] at h
              | error e2 => simp [PeerStream.poll_next, hc]
      | pending =>
        cases sp with
        | pending => simp [PeerStream.poll_next, hc] at h
        | ready os =>
          cases os with
          | none => simp [PeerStream.poll_next, hc] at h
          | some r =>
            cases r with
            | ok f => simp [PeerStream.poll_next, hc] at h
            | error e2 => simp [PeerStream.poll_next, hc]
  · intro t rp2 sp2 ht
    simp [PeerStream.poll_next, ht]

/-- Witness for C10 at a concrete input: a socket error is yielded, the
stream closes, and a closed stream polls to `Ready(None)`. -/
theorem c10_witness :
    ((⟨1, false⟩ : PeerStream).poll_next Poll.pending
        (Poll.ready (some (Except.error "io")))).1.closed = true ∧
    ∀ (t : PeerStream) (rp2 : Poll (Option Frame))
      (sp2 : Poll (Option (Except String Frame))),
      t.closed = true → t.poll_next rp2 sp2 = (t, Poll.ready none) :=
  c10_closed_after_error ⟨1, false⟩ Poll.pending
    (Poll.ready (some (Except.error "io"))) "io" rfl

/-- `remove_conn` writes only the `conn` cell: the other cells and the
counter are untouched whatever the id. -/
theorem State.remove_conn_cells (s : State) (id : Nat) :
    (s.remove_conn id).1.current_session = s.current_session ∧
    (s.remove_conn id).1.current_game_info = s.current_game_info ∧
    (s.remove_conn id).1.id_counter = s.id_counter := by
  unfold State.remove_conn
  cases s.conn with
  | none => exact ⟨rfl, rfl, rfl⟩
  | some c =>
    by_cases h : c.id = id
    · simp [h]
    · simp [h]

/-- A stale `remove_conn` (no conn, or an id that differs from the stored
conn's id) leaves the state unchanged. -/
theorem State.remove_conn_stale (s : State) (id : Nat)
    (h : ¬ s.conn.map LobbyConn.id = some id) : (s.remove_conn id).1 = s := by
  unfold State.remove_conn
  cases hc : s.conn with
  | none => rfl
  | some c =>
    have : ¬ c.id = id := by
      intro he
      exact h (by simp [hc, he])
    simp [this]

/-- A lobby conn with id 1, as allocated by a second `ConnectLobby`. -/
def c1Conn : LobbyConn := ⟨1, ⟨none, true⟩⟩

/-- A state holding conn id 1 and an authenticated session. -/
def c1State : State := ⟨2, some c1Conn, none, some testSession⟩

/-- C1 counterexample: a `Disconnected(0)` whose id differs from the stored
conn's id (1) nevertheless clears `current_session` — the handler takes the
session cell before the id-guarded `remove_conn`, so the three cells are
not all left unchanged. -/
theorem c1_counterexample :
    c1State.conn.map LobbyConn.id = some 1 ∧
    c1State.current_session = some testSession ∧
    (c1State.handle_stream_event testPlatform
        (ControllerStreamEvent.DisconnectedEvent 0)).1.current_session = none :=
  ⟨rfl, rfl, rfl⟩

/-- C1 amended: a stale `Disconnected(id)` or `ConnectionError(id, e)`
(id differing from the stored conn's id, or no conn stored) leaves `conn`
and `current_game_info` unchanged, and a stale `ConnectionError` leaves the
whole state (so also `current_session`) unchanged; a stale `Disconnected`,
however, still clears `current_session` to `None`. -/
theorem c1_amended_stale_guard (p : Platform) (s : State) (id : Nat) (err : FloError)
    (h : ¬ s.conn.map LobbyConn.id = some id) :
    ((s.handle_stream_event p (ControllerStreamEvent.DisconnectedEvent id)).1.conn = s.conn ∧
     (s.handle_stream_event p
        (ControllerStreamEvent.DisconnectedEvent id)).1.current_game_info =
       s.current_game_info ∧
     (s.handle_stream_event p
        (ControllerStreamEvent.DisconnectedEvent id)).1.current_session = none) ∧
    (s.handle_stream_event p (ControllerStreamEvent.ConnectionErrorEvent id err)).1 = s := by
  constructor
  · have hs : ¬ (State.conn { s with current_session := none }).map LobbyConn.id = some id := h
    have := State.remove_conn_stale { s with current_session := none } id hs
    simp [State.handle_stream_event, this]
  · have := State.remove_conn_stale s id h
    simp [State.handle_stream_event, this]

/-- Witness for C1 amended at a concrete input: conn id 1, stale id 0. -/
theorem c1_witness :
    ((c1State.handle_stream_event testPlatform
        (ControllerStreamEvent.DisconnectedEvent 0)).1.conn = c1State.conn ∧
     (c1State.handle_stream_event testPlatform
        (ControllerStreamEvent.DisconnectedEvent 0)).1.current_game_info =
       c1State.current_game_info ∧
     (c1State.handle_stream_event testPlatform
        (ControllerStreamEvent.DisconnectedEvent 0)).1.current_session = none) ∧
    (c1State.handle_stream_event testPlatform
        (ControllerStreamEvent.ConnectionErrorEvent 0 (FloError.StreamErr "io"))).1 =
      c1State :=
  c1_amended_stale_guard testPlatform c1State 0 (FloError.StreamErr "io") (by decide)

/-- A state holding the live conn id 0 and an authenticated session. -/
def c2State : State := ⟨1, some ⟨0, ⟨none, true⟩⟩, none, some testSession⟩

/-- C2 counterexample: handling a `ConnectionError(0, e)` that matches the
live conn removes the conn but does NOT clear `current_session` — it stays
`Some` although no lobby connection exists any more, so `current_session`
is neither "Some only while a connection has completed authentication" nor
"cleared on ConnectionError". -/
theorem c2_counterexample :
    (c2State.handle_stream_event testPlatform
        (ControllerStreamEvent.ConnectionErrorEvent 0 (FloError.StreamErr "io"))).1.conn =
      none ∧
    (c2State.handle_stream_event testPlatform
        (ControllerStreamEvent.ConnectionErrorEvent 0
          (FloError.StreamErr "io"))).1.current_session = some testSession :=
  ⟨rfl, rfl⟩

/-- C2 amended: `current_session` becomes `Some` only through a
`PlayerSessionUpdate(Full)`; handling `Stream::Disconnected(id)` clears it
to `None` for every id; handling `Stream::ConnectionError(id, e)` leaves it
unchanged. -/
theorem c2_amended_session_lifecycle (p : Platform) (s : State) (id : Nat)
    (err : FloError) (e : ControllerStreamEvent) :
    (s.handle_stream_event p
        (ControllerStreamEvent.DisconnectedEvent id)).1.current_session = none ∧
    (s.handle_stream_event p
        (ControllerStreamEvent.ConnectionErrorEvent id err)).1.current_session =
      s.current_session ∧
    ((s.handle_stream_event p e).1.current_session.isSome →
      s.current_session.isSome ∨
      ∃ session, e = ControllerStreamEvent.PlayerSessionUpdateEvent
        (PlayerSessionUpdateEvent.Full session)) := by
  refine ⟨?_, ?_, ?_⟩
  · have := (State.remove_conn_cells { s with current_session := none } id).1
    simp [State.handle_stream_event, this]
  · have := (State.remove_conn_cells s id).1
    simp [State.handle_stream_event, this]
  · intro h
    cases e with
    | ConnectedEvent => left; simpa [State.handle_stream_event] using h
    | DisconnectedEvent id2 =>
      have := (State.remove_conn_cells { s with current_session := none } id2).1
      simp [State.handle_stream_event, this] at h
    | ConnectionErrorEvent id2 err2 =>
      have := (State.remove_conn_cells s id2).1
      left
      simpa [State.handle_stream_event, this] using h
    | PlayerSessionUpdateEvent ev =>
      cases ev with
      | Full session => right; exact ⟨session, rfl⟩
      | Part update =>
        cases hs : s.current_session with
        | none => simp [State.handle_stream_event, hs] at h
        | some current => left; simp [hs]
    | GameInfoUpdateEvent gi => left; simpa [State.handle_stream_event] using h
    | GameStartingEvent gid =>
      left
      cases hg : s.handle_game_start p gid with
      | ok eff => simpa [State.handle_stream_event, hg] using h
      | error e2 => simpa [State.handle_stream_event, hg] using h
    | GameStartedEvent ev =>
      left
      cases hg : s.current_game_info with
      | some gi => simpa [State.handle_stream_event, hg] using h
      | none => simpa [State.handle_stream_event, hg] using h

/-- Witness for C2 amended at a concrete input: the live-conn error state;
the only-Full part is discharged at a `Full` update on the empty state. -/
theorem c2_witness :
    (c2State.handle_stream_event testPlatform
        (ControllerStreamEvent.DisconnectedEvent 0)).1.current_session = none ∧
    (c0State.handle_stream_event testPlatform
        (ControllerStreamEvent.PlayerSessionUpdateEvent
          (PlayerSessionUpdateEvent.Full testSession))).1.current_session.isSome →
      c0State.current_session.isSome ∨
      ∃ session,
        ControllerStreamEvent.PlayerSessionUpdateEvent
            (PlayerSessionUpdateEvent.Full testSession) =
          ControllerStreamEvent.PlayerSessionUpdateEvent
            (PlayerSessionUpdateEvent.Full session) :=
  fun _ =>
    (c2_amended_session_lifecycle testPlatform c0State 0 (FloError.StreamErr "io")
      (ControllerStreamEvent.PlayerSessionUpdateEvent
        (PlayerSessionUpdateEvent.Full testSession))).2.2 (by decide)

/-- The spec's stale-disconnect scenario: `ConnectLobby` (allocating id 0),
`Connected`, `ConnectLobby` (allocating id 1), then `Disconnected(0)`. -/
def c3Trace : List CoordInput :=
  [CoordInput.ws (WsEvent.ConnectLobbyEvent "token"),
   CoordInput.stream ControllerStreamEvent.ConnectedEvent,
   CoordInput.ws (WsEvent.ConnectLobbyEvent "token"),
   CoordInput.stream (ControllerStreamEvent.DisconnectedEvent 0)]

/-- C3 counterexample: on the stale-disconnect trace the coordinator DOES
emit an outward `ControllerEvent::Disconnected` — the emission after a
`Stream::Disconnected(id)` is unconditional — even though the stored conn
is still the one with id 1. -/
theorem c3_counterexample :
    (c0State.run testPlatform c3Trace).1.conn.map LobbyConn.id = some 1 ∧
    ControllerEvent.DisconnectedEvent ∈ (c0State.run testPlatform c3Trace).2.events := by
  decide

/-- C3 amended: on the trace `ConnectLobby` (id 0), `Connected`,
`ConnectLobby` (id 1), `Disconnected(0)` the stored conn afterwards is
still the one with id 1 (and its session cell is cleared), but the outward
events are `Connected` followed by a `Disconnected` emitted for the stale
event. -/
theorem c3_amended_stale_disconnect_trace :
    (c0State.run testPlatform c3Trace).1.conn.map LobbyConn.id = some 1 ∧
    (c0State.run testPlatform c3Trace).2.events =
      [ControllerEvent.ConnectedEvent, ControllerEvent.DisconnectedEvent] := by
  decide

/-- C4: a `GamePlayerPingMapUpdate` frame is handed to the lobby iff the
ping measurement succeeded, a conn is stored and its stream reports a
current game id; the frame then carries that game id and the single-entry
map `node_id → ping`; a failed ping (`None`) is never uploaded. -/
theorem c4_ping_upload_gating (s : State) (u : PingUpdate) :
    ((s.handle_ping_update u).frames ≠ [] ↔
      u.ping.isSome ∧ ∃ c game_id, s.conn = some c ∧
        c.stream.current_game_id = some game_id) ∧
    (∀ c game_id ping, s.conn = some c → c.stream.current_game_id = some game_id →
      u.ping = some ping →
      (s.handle_ping_update u).frames =
        [Frame.gamePlayerPingMapUpdate game_id [(u.node_id, ping)]]) ∧
    (u.ping = none → (s.handle_ping_update u).frames = []) := by
  refine ⟨?_, ?_, ?_⟩
  · cases hconn : s.conn with
    | none => simp [State.handle_ping_update, hconn, noEffects]
    | some c =>
      cases hp : u.ping with
      | none => simp [State.handle_ping_update, hconn, hp]
      | some ping =>
        cases hg : c.stream.current_game_id with
        | none => simp [State.handle_ping_update, hconn, hp, hg]
        | some game_id => simp [State.handle_ping_update, hconn, hp, hg]
  · intro c game_id ping hconn hg hp
    simp [State.handle_ping_update, hconn, hp, hg]
  · intro hp
    cases hconn : s.conn with
    | none => simp [State.handle_ping_update, hconn, noEffects]
    | some c => simp [State.handle_ping_update, hconn, hp]

/-- A state in a joined game: conn id 0 whose stream reports game 10. -/
def c4State : State := ⟨1, some ⟨0, ⟨some 10, true⟩⟩, none, some testSession⟩

/-- Witness for C4 at a concrete input: scenario 5 of the spec, ping 42 ms
to node 3 while the stream reports game 10. -/
theorem c4_witness :
    (c4State.handle_ping_update ⟨3, some 42⟩).frames =
      [Frame.gamePlayerPingMapUpdate 10 [(3, 42)]] :=
  (c4_ping_upload_gating c4State ⟨3, some 42⟩).2.1 ⟨0, ⟨some 10, true⟩⟩ 10 42 rfl rfl rfl

/-- C5: a `GameStarting{game_id}` whose id does not match the cached game
info (or arrives with none cached) changes nothing — no state change, no
frame, no event, no log; and a `GameStartPlayerClientInfo` frame is sent
only when the cached `game_info.game_id` matches the event's id. -/
theorem c5_game_start_stale_guard (p : Platform) (s : State) (game_id : Int) :
    ((∀ info, s.current_game_info = some info → info.game_id ≠ game_id) →
      s.handle_stream_event p (ControllerStreamEvent.GameStartingEvent game_id) =
        (s, noEffects)) ∧
    (∀ g v sha1,
      Frame.gameStartPlayerClientInfo g v sha1 ∈
        (s.handle_stream_event p
          (ControllerStreamEvent.GameStartingEvent game_id)).2.frames →
      ∃ info, s.current_game_info = some info ∧ info.game_id = game_id ∧
        g = game_id) := by
  cases hinfo : s.current_game_info with
  | none =>
    constructor
    · intro _
      simp [State.handle_stream_event, State.handle_game_start, hinfo]
    · intro g v sha1 hmem
      simp [State.handle_stream_event, State.handle_game_start, hinfo,
        noEffects] at hmem
  | some info =>
    by_cases hid : info.game_id = game_id
    · constructor
      · intro hstale
        exact absurd hid (hstale info rfl)
      · intro g v sha1 hmem
        refine ⟨info, rfl, hid, ?_⟩
        cases hv : p.version with
        | none =>
          simp [State.handle_stream_event, State.handle_game_start, hinfo, hid, hv] at hmem
        | some version =>
          cases hsha : p.map_sha1 info.map_path with
          | none =>
            simp [State.handle_stream_event, State.handle_game_start,
              hinfo, hid, hv, hsha] at hmem
          | some sha =>
            cases hconn : s.conn with
            | none =>
              simp [State.handle_stream_event, State.handle_game_start,
                State.send_frame_or_disconnect_ws, hinfo, hid, hv, hsha, hconn,
                noEffects] at hmem
            | some c =>
              by_cases hopen : c.stream.sender_open
              · simp [State.handle_stream_event, State.handle_game_start,
                  State.send_frame_or_disconnect_ws, hinfo, hid, hv, hsha, hconn,
                  hopen] at hmem
                exact hmem.1
              · simp [State.handle_stream_event, State.handle_game_start,
                  State.send_frame_or_disconnect_ws, hinfo, hid, hv, hsha, hconn,
                  hopen] at hmem
                exact hmem.1
    · constructor
      · intro _
        simp [State.handle_stream_event, State.handle_game_start, hinfo, hid]
      · intro g v sha1 hmem
        simp [State.handle_stream_event, State.handle_game_start, hinfo, hid,
          noEffects] at hmem

/-- The cached game info of the spec's game-start stale-guard scenario. -/
def c5Info : LobbyGameInfo := ⟨10, "maps/w3c.w3x", List.replicate 20 1, 77, [], none⟩

/-- A state that cached game info for game 10 with a live conn. -/
def c5State : State := ⟨1, some ⟨0, ⟨some 10, true⟩⟩, some c5Info, some testSession⟩

/-- Witness for C5 at a concrete input: scenario 4 of the spec,
`GameInfoUpdate(Some{game_id=10})` cached, then `GameStarting{game_id=11}`
does nothing. -/
theorem c5_witness :
    c5State.handle_stream_event testPlatform
        (ControllerStreamEvent.GameStartingEvent 11) = (c5State, noEffects) :=
  (c5_game_start_stale_guard testPlatform c5State 11).1
    (fun info h => (Option.some.inj h) ▸ (by decide : c5Info.game_id ≠ 11))

/-- The worker loop never emits another `GameInitialStatus`: that event is
produced once, before the loop. -/
theorem runWorkerLoop_no_initial (ios : List WorkerInput) (snap : NodeGameStatusSnapshot) :
    NodeStreamEvent.GameInitialStatus snap ∉ runWorkerLoop ios := by
  induction ios with
  | nil => simp [runWorkerLoop]
  | cons io rest ih =>
    cases io with
    | ScopeDropped => simp [runWorkerLoop]
    | Recv body =>
      cases body with
      | W3GS d => cases d <;> simp [runWorkerLoop, ih]
      | UpdateSlotClientStatus u ok => cases ok <;> simp [runWorkerLoop, ih]
      | UpdateSlotClientStatusReject => simp [runWorkerLoop, ih]
      | NodeGameStatusUpdate g => simp [runWorkerLoop, ih]
      | UnknownFrame => simpa [runWorkerLoop] using ih
    | RecvStreamClosed => simp [runWorkerLoop]
    | RecvErr => simp [runWorkerLoop]
    | Outgoing ok => cases ok <;> simp [runWorkerLoop, ih]
    | OutgoingClosed => simp [runWorkerLoop]

/-- Shape of the loop's emissions when the node never sends an
`UpdateSlotClientStatusReject`: a `Disconnected`-free prefix, optionally
terminated by a single `Disconnected`. -/
theorem runWorkerLoop_shape (ios : List WorkerInput)
    (h : WorkerInput.Recv NodeFrameBody.UpdateSlotClientStatusReject ∉ ios) :
    ∃ l, NodeStreamEvent.Disconnected ∉ l ∧
      (runWorkerLoop ios = l ∨
       runWorkerLoop ios = l ++ [NodeStreamEvent.Disconnected]) := by
  induction ios with
  | nil => exact ⟨[], by simp, Or.inl (by simp [runWorkerLoop])⟩
  | cons io rest ih =>
    have hrest : WorkerInput.Recv NodeFrameBody.UpdateSlotClientStatusReject ∉ rest :=
      fun hm => h (List.mem_cons_of_mem _ hm)
    have hio : io ≠ WorkerInput.Recv NodeFrameBody.UpdateSlotClientStatusReject :=
      fun he => h (he ▸ List.mem_cons_self _ _)
    cases io with
    | ScopeDropped => exact ⟨[], by simp, Or.inl (by simp [runWorkerLoop])⟩
    | Recv body =>
      cases body with
      | W3GS d =>
        cases d with
        | false => exact ⟨[], by simp, Or.inl (by simp [runWorkerLoop])⟩
        | true =>
          obtain ⟨l, h1, h2⟩ := ih hrest
          exact ⟨l, h1, by simpa [runWorkerLoop] using h2⟩
      | UpdateSlotClientStatus u ok =>
        cases ok with
        | false => exact ⟨[], by simp, Or.inl (by simp [runWorkerLoop])⟩
        | true =>
          obtain ⟨l, h1, h2⟩ := ih hrest
          refine ⟨NodeStreamEvent.SlotClientStatusUpdate u :: l, by simp [h1], ?_⟩
          cases h2 with
          | inl h2 => exact Or.inl (by simp [runWorkerLoop, h2])
          | inr h2 => exact Or.inr (by simp [runWorkerLoop, h2])
      | UpdateSlotClientStatusReject => exact absurd rfl hio
      | NodeGameStatusUpdate g =>
        obtain ⟨l, h1, h2⟩ := ih hrest
        refine ⟨NodeStreamEvent.GameStatusUpdate g :: l, by simp [h1], ?_⟩
        cases h2 with
        | inl h2 => exact Or.inl (by simp [runWorkerLoop, h2])
        | inr h2 => exact Or.inr (by simp [runWorkerLoop, h2])
      | UnknownFrame =>
        obtain ⟨l, h1, h2⟩ := ih hrest
        exact ⟨l, h1, by simpa [runWorkerLoop] using h2⟩
    | RecvStreamClosed =>
      exact ⟨[], by simp, Or.inr (by simp [runWorkerLoop])⟩
    | RecvErr =>
      exact ⟨[], by simp, Or.inr (by simp [runWorkerLoop])⟩
    | Outgoing ok =>
      cases ok with
      | false => exact ⟨[], by simp, Or.inr (by simp [runWorkerLoop])⟩
      | true =>
        obtain ⟨l, h1, h2⟩ := ih hrest
        exact ⟨l, h1, by simpa [runWorkerLoop] using h2⟩
    | OutgoingClosed => exact ⟨[], by simp, Or.inl (by simp [runWorkerLoop])⟩

/-- A concrete game-status update frame for the C6 scenario. -/
def c6GS : GameStatusUpdate := ⟨5⟩

/-- The initial snapshot of the C6 scenario. -/
def c6Snap : NodeGameStatusSnapshot := ⟨5⟩

/-- Node inputs for C6: a status-reject frame, then a game-status frame. -/
def c6Bad : List WorkerInput :=
  [WorkerInput.Recv NodeFrameBody.UpdateSlotClientStatusReject,
   WorkerInput.Recv (NodeFrameBody.NodeGameStatusUpdate c6GS)]

/-- C6 counterexample: after an `UpdateSlotClientStatusReject` the worker
emits `Disconnected` yet keeps running (`handle_node_frame` returns `Ok`),
so a further `GameStatusUpdate` event is emitted after the `Disconnected` —
the emitted sequence is `[GameInitialStatus, Disconnected, GameStatusUpdate]`. -/
theorem c6_counterexample :
    NodeStream.worker c6Snap c6Bad =
      [NodeStreamEvent.GameInitialStatus c6Snap, NodeStreamEvent.Disconnected,
       NodeStreamEvent.GameStatusUpdate c6GS] ∧
    NodeStreamEvent.Disconnected ∈ NodeStream.worker c6Snap c6Bad ∧
    (NodeStream.worker c6Snap c6Bad).getLast? =
      some (NodeStreamEvent.GameStatusUpdate c6GS) := by
  decide

/-- C6 amended: the worker's event sequence begins with exactly one
`GameInitialStatus` (never re-emitted later); and provided the node never
sends an `UpdateSlotClientStatusReject` frame, the sequence contains at
most one `Disconnected` and no event of any kind is emitted after it (it
can only be the last event). A `Disconnected` emitted in response to
`UpdateSlotClientStatusReject` does not terminate the worker, and further
events may follow it. -/
theorem c6_amended_worker_events (init : NodeGameStatusSnapshot)
    (ios : List WorkerInput)
    (h : WorkerInput.Recv NodeFrameBody.UpdateSlotClientStatusReject ∉ ios) :
    (NodeStream.worker init ios =
        NodeStreamEvent.GameInitialStatus init :: runWorkerLoop ios ∧
      ∀ snap, NodeStreamEvent.GameInitialStatus snap ∉ runWorkerLoop ios) ∧
    (runWorkerLoop ios).countP
        (fun e => decide (e = NodeStreamEvent.Disconnected)) ≤ 1 ∧
    (NodeStreamEvent.Disconnected ∈ runWorkerLoop ios →
      (runWorkerLoop ios).getLast? = some NodeStreamEvent.Disconnected) := by
  obtain ⟨l, hnot, hor⟩ := runWorkerLoop_shape ios h
  refine ⟨⟨rfl, fun snap => runWorkerLoop_no_initial ios snap⟩, ?_, ?_⟩
  · cases hor with
    | inl heq =>
      rw [heq]
      have : l.countP (fun e => decide (e = NodeStreamEvent.Disconnected)) = 0 := by
        rw [List.countP_eq_zero]
        intro a ha
        simp only [decide_eq_true_eq]
        intro he
        subst he
        exact hnot ha
      omega
    | inr heq =>
      rw [heq, List.countP_append]
      have h0 : l.countP (fun e => decide (e = NodeStreamEvent.Disconnected)) = 0 := by
        rw [List.countP_eq_zero]
        intro a ha
        simp only [decide_eq_true_eq]
        intro he
        subst he
        exact hnot ha
      simp [h0]
  · intro hmem
    cases hor with
    | inl heq =>
      rw [heq] at hmem
      exact absurd hmem hnot
    | inr heq =>
      rw [heq]
      simp

/-- Witness for C6 amended at a concrete input: a stream-closure after one
status update yields `[GameInitialStatus, SlotClientStatusUpdate,
Disconnected]`. -/
theorem c6_witness :
    (NodeStream.worker c6Snap
        [WorkerInput.Recv (NodeFrameBody.NodeGameStatusUpdate c6GS),
         WorkerInput.RecvStreamClosed] =
      NodeStreamEvent.GameInitialStatus c6Snap ::
        runWorkerLoop [WorkerInput.Recv (NodeFrameBody.NodeGameStatusUpdate c6GS),
          WorkerInput.RecvStreamClosed] ∧
      ∀ snap, NodeStreamEvent.GameInitialStatus snap ∉
        runWorkerLoop [WorkerInput.Recv (NodeFrameBody.NodeGameStatusUpdate c6GS),
          WorkerInput.RecvStreamClosed]) ∧
    (runWorkerLoop [WorkerInput.Recv (NodeFrameBody.NodeGameStatusUpdate c6GS),
        WorkerInput.RecvStreamClosed]).countP
      (fun e => decide (e = NodeStreamEvent.Disconnected)) ≤ 1 ∧
    (NodeStreamEvent.Disconnected ∈
        runWorkerLoop [WorkerInput.Recv (NodeFrameBody.NodeGameStatusUpdate c6GS),
          WorkerInput.RecvStreamClosed] →
      (runWorkerLoop [WorkerInput.Recv (NodeFrameBody.NodeGameStatusUpdate c6GS),
          WorkerInput.RecvStreamClosed]).getLast? =
        some NodeStreamEvent.Disconnected) :=
  c6_amended_worker_events c6Snap
    [WorkerInput.Recv (NodeFrameBody.NodeGameStatusUpdate c6GS),
     WorkerInput.RecvStreamClosed] (by decide)
